import Mathlib

/-!
Shallow embedding of the reliability core of the repository:

* `app/utils/fallback.py` — `FallbackStrategy.execute_with_fallback`,
  `LLMFallbackManager.generate_text`, `EmbeddingFallbackManager.get_embedding`;
* `app/knowledge/embedding_providers.py` — `DummyEmbeddingProvider.get_embedding`;
* `app/process/manager.py` — `ProcessManager.send_prompt_and_get_response`,
  `ProcessManager._restart_process`;
* `app/process/factory.py` — `AgentProcessFactory.create_agent`, `send_prompt`,
  `terminate_agent`, `get_agent_status`.

Python exceptions are modelled explicitly: a call that can raise returns
`Except PyExc α`.  Raising `None` (Python's `raise last_exception` with
`last_exception is None`, which the interpreter turns into a `TypeError`)
is modelled at the retry-engine level by the error value `none` of type
`Option PyExc`.  Time (`time.sleep`, `asyncio.sleep`) is modelled by the
delay-schedule functions; external libraries (`json`, `hashlib.md5`, LLM and
embedding HTTP providers, supabase) are parameters of the model, since the
source treats them as opaque oracles.
-/

/-- Model of a Python exception value, as far as the claims need to
distinguish them.  `valueError msg` carries the exact message string built by
the source's f-strings; `typeError` is the `TypeError` the interpreter raises
for `raise None`; `providerError` stands for an arbitrary exception raised by
an external provider call. -/
inductive PyExc where
  | valueError (msg : String)
  | typeError
  | providerError (tag : Nat)
deriving DecidableEq, Repr

/-- Message of an exception, Python's `str(e)` as used in the source's
f-strings (only `ValueError` messages are ever re-wrapped by the code the
claims touch). -/
def pyExcMsg : PyExc → String
  | .valueError m => m
  | .typeError => "exceptions must derive from BaseException"
  | .providerError t => "provider error " ++ toString t

/-- Delay computed at `fallback.py:62` for the 0-based loop variable
`attempt`: `min(self.base_delay * (2 ** attempt), self.max_delay)`. -/
def fallback_delay (base_delay max_delay : ℚ) (attempt : ℕ) : ℚ :=
  min (base_delay * 2 ^ attempt) max_delay

/-- Realized delay at `fallback.py:63-64` when jitter is enabled:
`delay * (0.5 + random.random())`, with `r` the value drawn from
`random.random()` (so `0 ≤ r < 1`). -/
def jittered_delay (base_delay max_delay : ℚ) (attempt : ℕ) (r : ℚ) : ℚ :=
  fallback_delay base_delay max_delay attempt * (1/2 + r)

/-- One restart of `ProcessManager._restart_process` sleeps
`self.retry_delay` (`manager.py:339`) before re-initializing; the slept delay
is the same constant for every restart attempt `k` within a call. -/
def restart_sleep (retry_delay : ℚ) (_k : ℕ) : ℚ :=
  retry_delay

/-- The `for attempt in range(self.max_retries)` loop of
`execute_with_fallback` (`fallback.py:53-67`).  `primary n` is the outcome of
the `n`-th invocation of `primary_func` (0-based); the loop records the last
exception.  Returns `(successValue?, lastException, numberOfPrimaryCalls)`. -/
def ewf_attempts {E A : Type} (primary : ℕ → Except E A) :
    ℕ → ℕ → Option E → Option A × Option E × ℕ
  | _, 0, last => (none, last, 0)
  | start, n + 1, last =>
    match primary start with
    | .ok a => (some a, last, 1)
    | .error e =>
      let r := ewf_attempts primary (start + 1) n (some e)
      (r.1, r.2.1, r.2.2 + 1)

/-- Model of `FallbackStrategy.execute_with_fallback` (`fallback.py:38-80`):
try `primary` up to `max_retries` times (Python's `range` of a non-positive
number is empty, hence `Int.toNat`); on exhaustion run the fallback once if
supplied, else `raise last_exception`.  The error value `none` models
re-raising a still-`None` `last_exception`, which Python surfaces as a
`TypeError`. -/
def execute_with_fallback {E A : Type} (max_retries : ℤ)
    (primary : ℕ → Except E A) (fallback : Option (Except E A)) :
    Except (Option E) A :=
  match ewf_attempts primary 0 max_retries.toNat none with
  | (some a, _, _) => .ok a
  | (none, last, _) =>
    match fallback with
    | some (.ok a) => .ok a
    | some (.error e) => .error (some e)
    | none => .error last

/-- Number of times `execute_with_fallback` invokes `primary_func`. -/
def ewf_primary_calls {E A : Type} (max_retries : ℤ)
    (primary : ℕ → Except E A) : ℕ :=
  (ewf_attempts primary 0 max_retries.toNat none).2.2

/-- The exception object observed by a caller that catches what
`execute_with_fallback` raised: `raise None` materializes as a `TypeError`
instance. -/
def pyExcOfRaised : Option PyExc → PyExc
  | some e => e
  | none => .typeError

/-- Value contributed by one hex digit of the md5 digest
(`embedding_providers.py:214`): `(int(hash_part, 16) / 15.0) * 2 - 1`. -/
def hex_value (d : ℕ) : ℚ :=
  (d : ℚ) / 15 * 2 - 1

/-- The pre-normalization embedding built by
`DummyEmbeddingProvider.get_embedding` (`embedding_providers.py:209-215`):
for each `i in range(dimension)` take digest digit `i % len(text_hash)`.
`digest` models `hashlib.md5(text.encode()).hexdigest()` as the list of its
hex-digit values (md5 always yields 32 digits; an empty digest would make the
Python index `i % 0` raise, so theorems assume `digest ≠ []`). -/
def dummy_raw_embedding (digest : List ℕ) (dimension : ℕ) : List ℚ :=
  (List.range dimension).map (fun i => hex_value (digest.getD (i % digest.length) 0))

/-- Sum of squares of a rational vector; `np.linalg.norm v > 0` iff
`sumSq v > 0`, which is how the source's `if norm > 0:` guard is modelled. -/
def sumSq (v : List ℚ) : ℚ :=
  (v.map (fun x => x * x)).sum

/-- Euclidean norm of a real vector, `np.linalg.norm`
(`embedding_providers.py:218`). -/
noncomputable def normR (v : List ℝ) : ℝ :=
  Real.sqrt ((v.map (fun x => x * x)).sum)

/-- Model of `DummyEmbeddingProvider.get_embedding` (`embedding_providers.py:192-222`)
on an already-computed digest: build the raw vector, then normalize to unit
length when the norm is positive (`if norm > 0: embedding = [x / norm ...]`). -/
noncomputable def dummy_embedding_of_digest (digest : List ℕ) (dimension : ℕ) : List ℝ :=
  let raw := dummy_raw_embedding digest dimension
  if 0 < sumSq raw then
    raw.map (fun x : ℚ => (x : ℝ) / Real.sqrt ((sumSq raw : ℚ) : ℝ))
  else
    raw.map (fun x : ℚ => (x : ℝ))

/-- Model of `DummyEmbeddingProvider.get_embedding` on a text: hash the text with md5
(`md5hex`, an oracle for `hashlib.md5(...).hexdigest()`), then embed. -/
noncomputable def DummyEmbeddingProvider_get_embedding
    (md5hex : String → List ℕ) (dimension : ℕ) (text : String) : List ℝ :=
  dummy_embedding_of_digest (md5hex text) dimension

/-- The provider loop of `LLMFallbackManager.generate_text`
(`fallback.py:144-163`).  Each provider behavior maps the prompt and the
0-based attempt number to that call's outcome; each chain entry is run
through `execute_with_fallback` with no inner fallback, its failure recorded
as `last_exception`; when the chain is exhausted the last recorded error is
re-raised (`raise last_exception`). -/
def llm_try_providers (max_retries : ℤ) (prompt : String) :
    List (String → ℕ → Except PyExc String) → Option PyExc → Except PyExc String
  | [], last =>
    match last with
    | some e => .error e
    | none => .error .typeError
  | p :: rest, _last =>
    match execute_with_fallback max_retries (p prompt) none with
    | .ok s => .ok s
    | .error oe => llm_try_providers max_retries prompt rest (some (pyExcOfRaised oe))

/-- Model of `LLMFallbackManager.generate_text` (`fallback.py:127-163`): raise
`ValueError` when no provider is configured, otherwise try the chain and
propagate the last observed error.  The unused `last` starts as `None`. -/
def generate_text (max_retries : ℤ)
    (providers : List (String → ℕ → Except PyExc String)) (prompt : String) :
    Except PyExc String :=
  if providers.isEmpty then
    .error (.valueError "Nenhum provedor LLM configurado")
  else
    llm_try_providers max_retries prompt providers none

/-- The provider loop of `EmbeddingFallbackManager.get_embedding`
(`fallback.py:199-220`): try each entry through `execute_with_fallback` with
no inner fallback; any failure just moves to the next entry; after the chain
is exhausted return the deterministic dummy embedding. -/
noncomputable def emb_try_providers (max_retries : ℤ) (text : String)
    (digest : List ℕ) (dummy_dimension : ℕ) :
    List (String → ℕ → Except PyExc (List ℝ)) → Except PyExc (List ℝ)
  | [] => .ok (dummy_embedding_of_digest digest dummy_dimension)
  | p :: rest =>
    match execute_with_fallback max_retries (p text) none with
    | .ok v => .ok v
    | .error _ => emb_try_providers max_retries text digest dummy_dimension rest

/-- Model of `EmbeddingFallbackManager.get_embedding` (`fallback.py:181-220`): with no
providers configured go straight to the dummy provider; otherwise try the
chain and fall back to the dummy provider as last resort.  Both the empty
list and the exhausted chain end in the same dummy call, which
`emb_try_providers []` models. -/
noncomputable def EmbeddingFallbackManager_get_embedding (max_retries : ℤ)
    (dummy_dimension : ℕ) (md5hex : String → List ℕ)
    (providers : List (String → ℕ → Except PyExc (List ℝ))) (text : String) :
    Except PyExc (List ℝ) :=
  emb_try_providers max_retries text (md5hex text) dummy_dimension providers

/-- Mutable state of a `ProcessManager` (`manager.py:62-65`):
`is_initialized`, `is_running`, and whether `self.process` is a live handle
(`proc = false` models `self.process is None`). -/
structure PMState where
  is_initialized : Bool
  is_running : Bool
  proc : Bool
deriving DecidableEq, Repr

/-- Outcome of one full exchange attempt (the `try:` body of
`send_prompt_and_get_response`, `manager.py:198-230`) once the write was
reached: either `_read_response` returned a string (possibly empty), or one
of the caught exception classes fired during write or read. -/
inductive ExchangeOutcome where
  | response (s : String)
  | brokenPipe
  | connReset
  | timeoutError
  | otherExc
deriving DecidableEq, Repr

/-- Structured value returned by `send_prompt_and_get_response`; the method
returns a dict on every path, it never raises (every exception site in its
body is inside a `try/except`).  `errParse raw` is
`{"error": "Failed to parse response", "raw_response": raw}`; `errEmpty` is
`{"error": "Empty response from OpenManus"}`; `errInit` is
`{"error": "Failed to initialize ProcessManager"}`; `errExhausted n` is
`{"error": f"Failed to get response after \x7bn\x7d retries"}`. -/
inductive SendResult (J : Type) where
  | parsed (v : J)
  | errParse (raw : String)
  | errEmpty
  | errInit
  | errExhausted (max_retries : ℕ)
deriving DecidableEq, Repr

/-- Environment of one `send_prompt_and_get_response` call: `jsonLoads`
models Python's `json.loads` (`none` = `JSONDecodeError`); `exchange k` is
the outcome of the `k`-th attempt that reaches the stdin write; `spawnOk k`
says whether the `k`-th `initialize()` performed during the call (the header
one and one per `_restart_process`) ends with a live, started child. -/
structure SendEnv (J : Type) where
  jsonLoads : String → Option J
  exchange : ℕ → ExchangeOutcome
  spawnOk : ℕ → Bool

/-- IO performed by one `send_prompt_and_get_response` call: number of
completed `_restart_process` cycles, of child-process spawn attempts
(`asyncio.create_subprocess_exec` inside `initialize`), and of exchange
write attempts on the child's stdin. -/
structure SendStats where
  restarts : ℕ
  spawns : ℕ
  writes : ℕ
deriving DecidableEq, Repr

/-- State left by `_restart_process` (`manager.py:327-342`): `_cleanup`
resets every flag and drops the handle, then `initialize()` either brings
the manager fully up or (on spawn/startup failure) cleans up again, leaving
it stopped. -/
def restart_process (ok : Bool) : PMState :=
  if ok then ⟨true, true, true⟩ else ⟨false, false, false⟩

/-- The `while retry_count <= self.max_retries` loop of
`send_prompt_and_get_response` (`manager.py:196-248`).  `budget` is the
number of loop iterations still allowed (`max_retries + 1 - retry_count`);
`exIdx`/`spIdx` index `env.exchange`/`env.spawnOk`.  A reached write either
yields a response — empty string returns `errEmpty`, a JSON-decodable string
returns `parsed`, otherwise `errParse` is returned immediately — or one of
the caught exceptions, which triggers `_restart_process` and consumes one
retry.  When stdin is unavailable (`self.process` is `None`) the iteration
restarts without attempting a write. -/
def send_loop {J : Type} (env : SendEnv J) (max_retries : ℕ) :
    ℕ → PMState → ℕ → ℕ → SendResult J × PMState × SendStats
  | 0, st, _, _ => (.errExhausted max_retries, st, ⟨0, 0, 0⟩)
  | budget + 1, st, exIdx, spIdx =>
    if st.proc then
      match env.exchange exIdx with
      | .response s =>
        if s = "" then (.errEmpty, st, ⟨0, 0, 1⟩)
        else
          match env.jsonLoads s with
          | some v => (.parsed v, st, ⟨0, 0, 1⟩)
          | none => (.errParse s, st, ⟨0, 0, 1⟩)
      | _ =>
        let st2 := restart_process (env.spawnOk spIdx)
        let r := send_loop env max_retries budget st2 (exIdx + 1) (spIdx + 1)
        (r.1, r.2.1, ⟨r.2.2.restarts + 1, r.2.2.spawns + 1, r.2.2.writes + 1⟩)
    else
      let st2 := restart_process (env.spawnOk spIdx)
      let r := send_loop env max_retries budget st2 exIdx (spIdx + 1)
      (r.1, r.2.1, ⟨r.2.2.restarts + 1, r.2.2.spawns + 1, r.2.2.writes⟩)

/-- Model of `ProcessManager.send_prompt_and_get_response` (`manager.py:178-248`).
Header (`manager.py:190-194`): when the manager is not initialized or not
running it calls `initialize()` first — note that `initialize` returns early
without touching `is_running` when `is_initialized` is already true
(`manager.py:80-82`) — and returns the init-failure dict if the manager is
still not up; otherwise the retry loop runs with `max_retries + 1`
iterations (`retry_count` goes 0,…,`max_retries`). -/
def send_prompt_and_get_response {J : Type} (env : SendEnv J)
    (max_retries : ℕ) (st : PMState) : SendResult J × PMState × SendStats :=
  if st.is_initialized && st.is_running then
    send_loop env max_retries (max_retries + 1) st 0 0
  else if st.is_initialized then
    (.errInit, st, ⟨0, 0, 0⟩)
  else
    let st1 := restart_process (env.spawnOk 0)
    if st1.is_initialized && st1.is_running then
      let r := send_loop env max_retries (max_retries + 1) st1 0 1
      (r.1, r.2.1, ⟨r.2.2.restarts, r.2.2.spawns + 1, r.2.2.writes⟩)
    else
      (.errInit, st1, ⟨0, 1, 0⟩)

/-- One conversation turn held by the memory manager
(`add_user_message` / `add_assistant_message` in `factory.py:221,247`). -/
inductive Msg where
  | user (s : String)
  | assistant (s : String)
deriving DecidableEq, Repr

/-- The parts of a Supabase agent row that `create_agent` reads
(`factory.py:135-154`): the opaque provider/memory/knowledge configs and the
system prompt. -/
structure AgentConfig where
  llm_config : String
  memory_config : String
  kb_config : String
  system_prompt : String
deriving DecidableEq, Repr

/-- The dict stored in `self.processes[process_id]` by `create_agent`
(`factory.py:171-179`): the materialized providers are threaded through the
opaque configs, the memory manager's contents are the `memory` list (created
empty), `tools` holds the names of the enabled tool configs. -/
structure AgentInstance where
  agent_id : String
  system_prompt : String
  tools : List String
  memory : List Msg
  active : Bool
deriving DecidableEq, Repr

/-- Registry state of an `AgentProcessFactory` (`factory.py:33-38`):
`processes` keyed by process id, `agent_configs` / `agent_tools` keyed by
agent id; all are insertion-ordered dicts, modelled as association lists
(first match wins, as Python dict keys are unique). -/
structure FactoryState where
  processes : List (String × AgentInstance)
  agent_configs : List (String × AgentConfig)
  agent_tools : List (String × List (String × Bool))
deriving DecidableEq, Repr

/-- Python `d[k] = v` on a dict modelled as an association list: overwrite
the entry when present, append otherwise. -/
def alSet {α : Type} (l : List (String × α)) (k : String) (v : α) :
    List (String × α) :=
  if (l.lookup k).isSome then
    l.map (fun kv => if kv.1 = k then (k, v) else kv)
  else
    l ++ [(k, v)]

/-- Model of `AgentProcessFactory.load_agent_config` (`factory.py:40-115`): fetch the
agent row and its enabled tools from Supabase — modelled by the external
table `db` mapping agent id to its config and `(tool name, enabled)` list —
store them, and raise `ValueError` when the agent id is unknown (the caught
inner error is re-wrapped with the `Failed to load...` prefix). -/
def load_agent_config (db : List (String × (AgentConfig × List (String × Bool))))
    (st : FactoryState) (agent_id : String) :
    Except PyExc (AgentConfig × FactoryState) :=
  match db.lookup agent_id with
  | none =>
    .error (.valueError ("Failed to load agent configuration: Agent with ID "
      ++ agent_id ++ " not found"))
  | some (cfg, tools) =>
    .ok (cfg,
      { st with
        agent_configs := alSet st.agent_configs agent_id cfg
        agent_tools := alSet st.agent_tools agent_id (tools.filter (fun t => t.2)) })

/-- Model of `AgentProcessFactory.create_agent` (`factory.py:117-186`): load the
config if this agent id was not loaded yet, generate a fresh process id
(`uuid.uuid4()`, modelled by the `fresh_pid` argument), materialize the
providers from the opaque configs, filter the enabled tools, and store a new
active instance under the fresh process id.  Any inner `ValueError` is
re-wrapped as `Failed to create agent: ...`.  There is no check that the
agent id is already present. -/
def create_agent (db : List (String × (AgentConfig × List (String × Bool))))
    (st : FactoryState) (agent_id : String) (fresh_pid : String) :
    Except PyExc (String × FactoryState) :=
  let loaded : Except PyExc (AgentConfig × FactoryState) :=
    match st.agent_configs.lookup agent_id with
    | some cfg => .ok (cfg, st)
    | none => load_agent_config db st agent_id
  match loaded with
  | .error e => .error (.valueError ("Failed to create agent: " ++ pyExcMsg e))
  | .ok (cfg, st1) =>
    let agent_tools := (st1.agent_tools.lookup agent_id).getD []
    let tools_config := (agent_tools.filter (fun t => t.2)).map (fun t => t.1)
    let inst : AgentInstance :=
      ⟨agent_id, cfg.system_prompt, tools_config, [], true⟩
    .ok (fresh_pid, { st1 with processes := alSet st1.processes fresh_pid inst })

/-- Response of the materialized LLM provider's `generate_response`
(`factory.py:239-244`). -/
structure GenResponse where
  content : String
  tool_calls : List String
deriving DecidableEq, Repr

/-- The dict returned by `AgentProcessFactory.send_prompt`
(`factory.py:249-254`). -/
structure DispatchResult where
  process_id : String
  agent_id : String
  content : String
  tool_calls : List String
deriving DecidableEq, Repr

/-- Model of `AgentProcessFactory.send_prompt` (`factory.py:188-258`): raise (wrapped
as `Failed to send prompt...`) when the process id is unknown or the
instance is inactive; otherwise append the user turn, enrich the prompt via
the knowledge base (`enrich` oracle), call the provider (`gen` oracle, which
receives the system prompt, the conversation including the new user turn,
the tool descriptors and the enriched prompt), append the assistant turn and
return the response dict. -/
def factory_send_prompt
    (gen : String → List Msg → List String → String → GenResponse)
    (enrich : String → String) (st : FactoryState) (pid prompt : String) :
    Except PyExc (DispatchResult × FactoryState) :=
  match st.processes.lookup pid with
  | none =>
    .error (.valueError ("Failed to send prompt to agent: Process with ID "
      ++ pid ++ " not found"))
  | some p =>
    if p.active then
      let mem1 := p.memory ++ [Msg.user prompt]
      let resp := gen p.system_prompt mem1 p.tools (enrich prompt)
      let p2 : AgentInstance := { p with memory := mem1 ++ [Msg.assistant resp.content] }
      .ok (⟨pid, p.agent_id, resp.content, resp.tool_calls⟩,
        { st with processes :=
            st.processes.map (fun kv => if kv.1 = pid then (kv.1, p2) else kv) })
    else
      .error (.valueError ("Failed to send prompt to agent: Process with ID "
        ++ pid ++ " is not active"))

/-- Model of `AgentProcessFactory.terminate_agent` (`factory.py:260-285`): return
`false` when the process id is unknown; otherwise flip the instance's
`active` flag to `false` in place (the entry is kept in the table) and
return `true`. -/
def terminate_agent (st : FactoryState) (pid : String) : Bool × FactoryState :=
  match st.processes.lookup pid with
  | none => (false, st)
  | some _ =>
    (true,
      { st with processes :=
          st.processes.map (fun kv =>
            if kv.1 = pid then (kv.1, { kv.2 with active := false }) else kv) })

/-- The dict returned by `AgentProcessFactory.get_agent_status`
(`factory.py:334-340`). -/
structure AgentStatus where
  process_id : String
  agent_id : String
  active : Bool
  tools_count : ℕ
  memory_size : ℕ
deriving DecidableEq, Repr

/-- Model of `AgentProcessFactory.get_agent_status` (`factory.py:316-340`): raise
`ValueError` when the process id is unknown, else report the instance's
fields (`memory_size` is the memory manager's entry count). -/
def get_agent_status (st : FactoryState) (pid : String) :
    Except PyExc AgentStatus :=
  match st.processes.lookup pid with
  | none =>
    .error (.valueError ("Process with ID " ++ pid ++ " not found"))
  | some p =>
    .ok ⟨pid, p.agent_id, p.active, p.tools.length, p.memory.length⟩

/-- C2: the delay before retry `n` (`n ≥ 1`, counting from the first retry;
the loop variable `attempt` is `n - 1`) is `min(base_delay * 2^(n-1),
max_delay)`; with jitter disabled the delay sequence is non-decreasing and
caps at `max_delay`, and for `base_delay = 1.0`, `max_delay = 10.0` retries
1..5 sleep `1.0, 2.0, 4.0, 8.0, 10.0`; with jitter enabled the realized
delay is `computedDelay * (0.5 + r)` for the drawn `r ∈ [0,1)`, hence
between 50% and 150% of the deterministic value. -/
theorem fallback_backoff_schedule (base maxD : ℚ) (n m : ℕ) (r : ℚ)
    (_hn : 1 ≤ n) (hbase : 0 < base) (hmax : 0 < maxD)
    (hr0 : 0 ≤ r) (hr1 : r < 1) :
    fallback_delay base maxD (n - 1) = min (base * 2 ^ (n - 1)) maxD
    ∧ fallback_delay base maxD m ≤ fallback_delay base maxD (m + 1)
    ∧ fallback_delay base maxD m ≤ maxD
    ∧ (List.range 5).map (fallback_delay 1 10) = [1, 2, 4, 8, 10]
    ∧ jittered_delay base maxD m r = fallback_delay base maxD m * (1/2 + r)
    ∧ fallback_delay base maxD m * (1/2) ≤ jittered_delay base maxD m r
    ∧ jittered_delay base maxD m r < fallback_delay base maxD m * (3/2) := by
  have hd0 : (0 : ℚ) ≤ fallback_delay base maxD m :=
    le_min (by positivity) hmax.le
  have hdpos : (0 : ℚ) < fallback_delay base maxD m :=
    lt_min (by positivity) hmax
  refine ⟨rfl, ?_, min_le_right _ _, ?_, rfl, ?_, ?_⟩
  · exact min_le_min
      (mul_le_mul_of_nonneg_left
        (pow_le_pow_right₀ (by norm_num) (Nat.le_succ m)) hbase.le) le_rfl
  · norm_num [fallback_delay, List.range_succ, min_def]
  · exact mul_le_mul_of_nonneg_left (by linarith) hd0
  · exact mul_lt_mul_of_pos_left (by linarith) hdpos

/-- Witness for `fallback_backoff_schedule` at `base = 1`, `maxD = 10`,
`n = 1`, `m = 0`, `r = 1/4`. -/
theorem fallback_backoff_schedule_witness :
    fallback_delay 1 10 (1 - 1) = min (1 * 2 ^ (1 - 1)) 10
    ∧ fallback_delay 1 10 0 ≤ fallback_delay 1 10 (0 + 1)
    ∧ fallback_delay 1 10 0 ≤ 10
    ∧ (List.range 5).map (fallback_delay 1 10) = [1, 2, 4, 8, 10]
    ∧ jittered_delay 1 10 0 (1/4) = fallback_delay 1 10 0 * (1/2 + 1/4)
    ∧ fallback_delay 1 10 0 * (1/2) ≤ jittered_delay 1 10 0 (1/4)
    ∧ jittered_delay 1 10 0 (1/4) < fallback_delay 1 10 0 * (3/2) :=
  fallback_backoff_schedule 1 10 1 0 (1/4) (by norm_num) (by norm_num)
    (by norm_num) (by norm_num) (by norm_num)

/-- C10: with `max_retries ≤ 0` and no fallback function,
`execute_with_fallback` never invokes the primary function and re-raises
`last_exception`, which is still `None` — modelled as the `.error none`
outcome, which the Python interpreter surfaces as a `TypeError` (`raise
None`), not as any error of the spec's taxonomy. -/
theorem ewf_nonpositive_retries_no_fallback {E A : Type} (max_retries : ℤ)
    (primary : ℕ → Except E A) (h : max_retries ≤ 0) :
    execute_with_fallback max_retries primary none = .error none
    ∧ ewf_primary_calls max_retries primary = 0 := by
  have ht : max_retries.toNat = 0 := Int.toNat_of_nonpos h
  constructor
  · unfold execute_with_fallback
    rw [ht]
    rfl
  · unfold ewf_primary_calls
    rw [ht]
    rfl

/-- Witness for `ewf_nonpositive_retries_no_fallback` at `max_retries = 0`
with an always-failing primary over `E = A = Unit`. -/
theorem ewf_nonpositive_retries_no_fallback_witness :
    execute_with_fallback (0 : ℤ)
        (fun _ : ℕ => (Except.error () : Except Unit Unit)) none
      = .error none
    ∧ ewf_primary_calls (0 : ℤ)
        (fun _ : ℕ => (Except.error () : Except Unit Unit)) = 0 :=
  ewf_nonpositive_retries_no_fallback 0 _ (by norm_num)

/-- C6 counterexample: with the documented defaults (`retry_delay = 2.0`
for restarts, `max_delay = 10.0`), the supervisor's delay before the second
restart attempt is the constant `2.0`, while `execute_with_fallback`'s
schedule with `base_delay = 2.0` prescribes `4.0`, so the restart backoff
does not have the engine's exponential semantics. -/
theorem restart_backoff_differs_from_engine :
    restart_sleep 2 1 = 2
    ∧ fallback_delay 2 10 1 = 4
    ∧ restart_sleep 2 1 ≠ fallback_delay 2 10 1 := by
  refine ⟨rfl, by norm_num [fallback_delay], by norm_num [restart_sleep, fallback_delay]⟩

/-- C6 amended: `ProcessManager._restart_process` sleeps the constant
`retry_delay` before every restart attempt — a constant delay schedule, not
`execute_with_fallback`'s exponential backoff, from which it differs already
at the second attempt under the documented defaults. -/
theorem restart_backoff_constant (retry_delay : ℚ) (k : ℕ) :
    restart_sleep retry_delay k = retry_delay
    ∧ restart_sleep 2 1 ≠ fallback_delay 2 10 1 := by
  exact ⟨rfl, by norm_num [restart_sleep, fallback_delay]⟩

/-- Python dict lookup after `d[k] = v` when the key was absent. -/
theorem lookup_append_fresh {α : Type} (l : List (String × α)) (k : String)
    (v : α) (h : l.lookup k = none) : (l ++ [(k, v)]).lookup k = some v := by
  induction l with
  | nil => simp [List.lookup_cons]
  | cons kv t ih =>
    rcases kv with ⟨k1, v1⟩
    by_cases hk : k = k1
    · subst hk
      simp [List.lookup_cons] at h
    · simp only [List.cons_append, List.lookup_cons, beq_false_of_ne hk] at h ⊢
      exact ih h

/-- Updating the entry of a present key in a dict modelled as an
association list: the first match is rewritten through `f`. -/
theorem lookup_map_update {α : Type} (l : List (String × α)) (k : String)
    (f : α → α) (a : α) (h : l.lookup k = some a) :
    (l.map (fun kv => if kv.1 = k then (kv.1, f kv.2) else kv)).lookup k
      = some (f a) := by
  induction l with
  | nil => simp [List.lookup] at h
  | cons kv t ih =>
    rcases kv with ⟨k1, v1⟩
    by_cases hk : k = k1
    · subst hk
      simp only [List.lookup_cons, beq_self_eq_true] at h
      simp [List.lookup_cons, Option.some_inj.mp h]
    · have hk1 : ¬ (k1, v1).1 = k := fun hh => hk hh.symm
      simp only [List.lookup_cons, beq_false_of_ne hk] at h
      simp only [List.map_cons, if_neg hk1, List.lookup_cons, beq_false_of_ne hk]
      exact ih h

/-- Demo agent configuration used by the registry counterexample. -/
def demo_cfg : AgentConfig := ⟨"llm", "mem", "kb", "sys"⟩

/-- Demo Supabase contents: one agent row with id `a` and no tools. -/
def demo_db : List (String × (AgentConfig × List (String × Bool))) :=
  [("a", (demo_cfg, []))]

/-- C4 counterexample: creating agent `a` twice succeeds both times.
After the first `create_agent` the registry holds an instance with agent id
`a`, yet the second call with the same agent id returns `.ok` with a second
instance under the fresh process id `p2` — no `AgentAlreadyExists` error
exists anywhere in `create_agent`. -/
theorem create_agent_duplicate_counterexample :
    create_agent demo_db ⟨[], [], []⟩ "a" "p1"
      = .ok ("p1",
          ⟨[("p1", ⟨"a", "sys", [], [], true⟩)], [("a", demo_cfg)], [("a", [])]⟩)
    ∧ create_agent demo_db
        ⟨[("p1", ⟨"a", "sys", [], [], true⟩)], [("a", demo_cfg)], [("a", [])]⟩
        "a" "p2"
      = .ok ("p2",
          ⟨[("p1", ⟨"a", "sys", [], [], true⟩), ("p2", ⟨"a", "sys", [], [], true⟩)],
           [("a", demo_cfg)], [("a", [])]⟩) := by
  constructor <;> rfl

/-- C4 amended: re-creating with an agent id already present is not an
error: whenever the agent's configuration is loaded (as it is after any
successful `create_agent` for that id) and an instance with that agent id is
already registered, `create_agent` succeeds again, storing one more instance
under the fresh process id. -/
theorem create_agent_existing_id_succeeds
    (db : List (String × (AgentConfig × List (String × Bool))))
    (st : FactoryState) (agent_id fresh_pid pid0 : String)
    (cfg : AgentConfig) (inst0 : AgentInstance)
    (hcfg : st.agent_configs.lookup agent_id = some cfg)
    (_hpresent : st.processes.lookup pid0 = some inst0)
    (_hagent : inst0.agent_id = agent_id)
    (hfresh : st.processes.lookup fresh_pid = none) :
    ∃ st' : FactoryState,
      create_agent db st agent_id fresh_pid = .ok (fresh_pid, st')
      ∧ st'.processes.length = st.processes.length + 1
      ∧ st'.processes.lookup fresh_pid = some
          ⟨agent_id, cfg.system_prompt,
           (((st.agent_tools.lookup agent_id).getD []).filter (fun t => t.2)).map
             (fun t => t.1),
           [], true⟩ := by
  have hca : create_agent db st agent_id fresh_pid
      = .ok (fresh_pid,
          { st with processes := st.processes ++
              [(fresh_pid,
                ⟨agent_id, cfg.system_prompt,
                 (((st.agent_tools.lookup agent_id).getD []).filter
                    (fun t => t.2)).map (fun t => t.1),
                 [], true⟩)] }) := by
    simp [create_agent, hcfg, alSet, hfresh]
  refine ⟨_, hca, ?_, ?_⟩
  · simp
  · exact lookup_append_fresh _ _ _ hfresh

/-- Witness for `create_agent_existing_id_succeeds` on the demo registry
after one successful creation. -/
theorem create_agent_existing_id_succeeds_witness :
    ∃ st' : FactoryState,
      create_agent demo_db
          ⟨[("p1", ⟨"a", "sys", [], [], true⟩)], [("a", demo_cfg)], [("a", [])]⟩
          "a" "p2"
        = .ok ("p2", st')
      ∧ st'.processes.length
          = (FactoryState.mk [("p1", ⟨"a", "sys", [], [], true⟩)]
              [("a", demo_cfg)] [("a", [])]).processes.length + 1
      ∧ st'.processes.lookup "p2" = some
          ⟨"a", demo_cfg.system_prompt,
           ((((FactoryState.mk [("p1", ⟨"a", "sys", [], [], true⟩)]
                [("a", demo_cfg)] [("a", [])]).agent_tools.lookup "a").getD
              []).filter (fun t => t.2)).map (fun t => t.1),
           [], true⟩ :=
  create_agent_existing_id_succeeds demo_db _ "a" "p2" "p1" demo_cfg
    ⟨"a", "sys", [], [], true⟩ (by rfl) (by rfl) (by rfl) (by rfl)

/-- C8: terminating a known process id returns `true` and flips `active` to
`false` while keeping the instance in the table: `get_agent_status` still
answers for the id, now with `active = false`, and a subsequent
`send_prompt` dispatch fails with the is-not-active error (not the
not-found error); `terminate_agent` returns `false` exactly on ids the
registry never knew. -/
theorem terminate_is_not_delete (st : FactoryState) (pid prompt : String)
    (inst : AgentInstance)
    (gen : String → List Msg → List String → String → GenResponse)
    (enrich : String → String)
    (h : st.processes.lookup pid = some inst) :
    (terminate_agent st pid).1 = true
    ∧ (terminate_agent st pid).2.processes.lookup pid
        = some { inst with active := false }
    ∧ get_agent_status (terminate_agent st pid).2 pid
        = .ok ⟨pid, inst.agent_id, false, inst.tools.length, inst.memory.length⟩
    ∧ factory_send_prompt gen enrich (terminate_agent st pid).2 pid prompt
        = .error (.valueError ("Failed to send prompt to agent: Process with ID "
            ++ pid ++ " is not active"))
    ∧ ∀ (st2 : FactoryState) (pid2 : String),
        st2.processes.lookup pid2 = none → terminate_agent st2 pid2 = (false, st2) := by
  have hterm : terminate_agent st pid
      = (true,
        { st with processes :=
            st.processes.map (fun kv =>
              if kv.1 = pid then (kv.1, { kv.2 with active := false }) else kv) }) := by
    simp [terminate_agent, h]
  have hlook : (terminate_agent st pid).2.processes.lookup pid
      = some { inst with active := false } := by
    rw [hterm]
    exact lookup_map_update st.processes pid (fun p => { p with active := false }) inst h
  refine ⟨by rw [hterm], hlook, ?_, ?_, ?_⟩
  · simp [get_agent_status, hlook]
  · simp [factory_send_prompt, hlook]
  · intro st2 pid2 h2
    simp [terminate_agent, h2]

/-- Witness for `terminate_is_not_delete` on a one-instance registry. -/
theorem terminate_is_not_delete_witness :
    (terminate_agent ⟨[("p1", ⟨"a", "sys", [], [], true⟩)], [], []⟩ "p1").1 = true
    ∧ (terminate_agent ⟨[("p1", ⟨"a", "sys", [], [], true⟩)], [], []⟩ "p1").2.processes.lookup "p1"
        = some { (⟨"a", "sys", [], [], true⟩ : AgentInstance) with active := false }
    ∧ get_agent_status
        (terminate_agent ⟨[("p1", ⟨"a", "sys", [], [], true⟩)], [], []⟩ "p1").2 "p1"
        = .ok ⟨"p1", (⟨"a", "sys", [], [], true⟩ : AgentInstance).agent_id, false,
            (⟨"a", "sys", [], [], true⟩ : AgentInstance).tools.length,
            (⟨"a", "sys", [], [], true⟩ : AgentInstance).memory.length⟩
    ∧ factory_send_prompt (fun _ _ _ _ => ⟨"r", []⟩) (fun s => s)
        (terminate_agent ⟨[("p1", ⟨"a", "sys", [], [], true⟩)], [], []⟩ "p1").2 "p1" "hi"
        = .error (.valueError ("Failed to send prompt to agent: Process with ID "
            ++ "p1" ++ " is not active"))
    ∧ ∀ (st2 : FactoryState) (pid2 : String),
        st2.processes.lookup pid2 = none → terminate_agent st2 pid2 = (false, st2) :=
  terminate_is_not_delete ⟨[("p1", ⟨"a", "sys", [], [], true⟩)], [], []⟩ "p1" "hi"
    ⟨"a", "sys", [], [], true⟩ (fun _ _ _ _ => ⟨"r", []⟩) (fun s => s) (by rfl)

/-- When every exchange attempt breaks the pipe, each loop iteration of
`send_prompt_and_get_response` performs exactly one `_restart_process`
cycle (whether or not the restart brought a child back), the loop runs its
full budget, and the terminal retries-exhausted dict is returned.  The
function is structurally total: the loop can never hang. -/
theorem send_loop_all_broken {J : Type} (env : SendEnv J)
    (mr : ℕ) (hex : ∀ k, env.exchange k = .brokenPipe) :
    ∀ (b : ℕ) (st : PMState) (exIdx spIdx : ℕ),
      (send_loop env mr b st exIdx spIdx).1 = .errExhausted mr
      ∧ (send_loop env mr b st exIdx spIdx).2.2.restarts = b
      ∧ (send_loop env mr b st exIdx spIdx).2.2.writes ≤ b := by
  intro b
  induction b with
  | zero =>
    intro st exIdx spIdx
    exact ⟨rfl, rfl, Nat.le_refl 0⟩
  | succ n ih =>
    intro st exIdx spIdx
    by_cases hp : st.proc = true
    · have h1 := ih (restart_process (env.spawnOk spIdx)) (exIdx + 1) (spIdx + 1)
      simp only [send_loop, hp, if_true, hex exIdx]
      exact ⟨h1.1, by simp [h1.2.1], by omega⟩
    · have hp' : st.proc = false := by simpa using hp
      have h1 := ih (restart_process (env.spawnOk spIdx)) exIdx (spIdx + 1)
      simp only [send_loop, hp', Bool.false_eq_true, if_false]
      exact ⟨h1.1, by simp [h1.2.1], by omega⟩

/-- C1 amended: for a manager that is initialized and running whose child
always fails the exchange with `BrokenPipe`, one
`send_prompt_and_get_response` call performs exactly `max_retries + 1`
restart cycles (the loop runs for `retry_count = 0, …, max_retries`, i.e.
`max_retries + 1` full-exchange attempts — one more than the spec's
"bounded by maxRetries attempts"), always terminates, and returns the
terminal exchange-failure dict
`{"error": f"Failed to get response after ... retries"}`. -/
theorem send_broken_pipe_retry_bound {J : Type} (env : SendEnv J)
    (mr : ℕ) (st : PMState)
    (hinit : st.is_initialized = true) (hrun : st.is_running = true)
    (hex : ∀ k, env.exchange k = .brokenPipe) :
    (send_prompt_and_get_response env mr st).1 = .errExhausted mr
    ∧ (send_prompt_and_get_response env mr st).2.2.restarts = mr + 1
    ∧ (send_prompt_and_get_response env mr st).2.2.writes ≤ mr + 1 := by
  have h := send_loop_all_broken env mr hex (mr + 1) st 0 0
  simpa [send_prompt_and_get_response, hinit, hrun] using h

/-- Environment whose child breaks the pipe on every exchange while
restarts succeed; used for the C1 counterexample and witness. -/
def envBroken : SendEnv Unit :=
  ⟨fun _ => none, fun _ => ExchangeOutcome.brokenPipe, fun _ => true⟩

/-- Witness for `send_broken_pipe_retry_bound` with `max_retries = 3` from
a ready state. -/
theorem send_broken_pipe_retry_bound_witness :
    (send_prompt_and_get_response envBroken 3 ⟨true, true, true⟩).1
      = .errExhausted 3
    ∧ (send_prompt_and_get_response envBroken 3 ⟨true, true, true⟩).2.2.restarts
      = 3 + 1
    ∧ (send_prompt_and_get_response envBroken 3 ⟨true, true, true⟩).2.2.writes
      ≤ 3 + 1 :=
  send_broken_pipe_retry_bound envBroken 3 ⟨true, true, true⟩ rfl rfl
    (fun _ => rfl)

/-- C1 counterexample: with `max_retries = 3` and a child that always
breaks the pipe (restarts succeeding), `send_prompt_and_get_response`
performs 4 restart cycles and 4 full-exchange attempts — the loop condition
is `retry_count <= self.max_retries` (`manager.py:197`) — so the claimed
"at most 3 restart cycles / at most maxRetries attempts" bound is false. -/
theorem send_broken_pipe_counterexample :
    (send_prompt_and_get_response envBroken 3 ⟨true, true, true⟩).2.2.restarts = 4
    ∧ ¬ (send_prompt_and_get_response envBroken 3 ⟨true, true, true⟩).2.2.restarts ≤ 3
    ∧ (send_prompt_and_get_response envBroken 3 ⟨true, true, true⟩).2.2.writes = 4
    ∧ (send_prompt_and_get_response envBroken 3 ⟨true, true, true⟩).1
        = .errExhausted 3 := by
  refine ⟨rfl, by decide, rfl, rfl⟩

/-- C5 amended: when `_restart_process` fails, the manager is left
un-initialized, not running and without a process handle; a subsequent
`send_prompt_and_get_response` does not fail without IO — its header calls
`initialize()` again (`manager.py:190-194`), performing one child spawn
attempt; only when that re-initialization also fails does the call return
the init-failure dict immediately, with no exchange write or further
restart. -/
theorem send_after_failed_restart {J : Type} (env : SendEnv J)
    (mr : ℕ) (st : PMState)
    (hinit : st.is_initialized = false) (hspawn : env.spawnOk 0 = false) :
    restart_process false = ⟨false, false, false⟩
    ∧ send_prompt_and_get_response env mr st
        = (.errInit, ⟨false, false, false⟩, ⟨0, 1, 0⟩) := by
  constructor
  · rfl
  · simp [send_prompt_and_get_response, hinit, hspawn, restart_process]

/-- Witness for `send_after_failed_restart` from the stopped state with a
spawn that keeps failing. -/
theorem send_after_failed_restart_witness :
    restart_process false = ⟨false, false, false⟩
    ∧ send_prompt_and_get_response
        (⟨fun _ => none, fun _ => ExchangeOutcome.brokenPipe, fun _ => false⟩ : SendEnv Unit)
        3 ⟨false, false, false⟩
        = (.errInit, ⟨false, false, false⟩, ⟨0, 1, 0⟩) :=
  send_after_failed_restart
    (⟨fun _ => none, fun _ => ExchangeOutcome.brokenPipe, fun _ => false⟩ : SendEnv Unit)
    3 ⟨false, false, false⟩ rfl rfl

/-- Environment in which spawning succeeds and the child answers the first
exchange with a decodable response; used for the C5 counterexample. -/
def envRevive : SendEnv Unit :=
  ⟨fun _ => some (), fun _ => ExchangeOutcome.response "x", fun _ => true⟩

/-- C5 counterexample: from the stopped state left by a failed restart
(`is_initialized = is_running = false`, no process handle), the next
`send_prompt_and_get_response` call does not fail immediately without IO —
it spawns a new child (`spawns = 1`), writes the prompt (`writes = 1`) and
even succeeds, returning the parsed response. -/
theorem send_after_failed_restart_counterexample :
    send_prompt_and_get_response envRevive 3 ⟨false, false, false⟩
      = (.parsed (), ⟨true, true, true⟩, ⟨0, 1, 1⟩) := by
  rfl

/-- C9: when a complete response string is read but fails to decode as JSON
(`json.loads` raises `JSONDecodeError`, `manager.py:219-227`),
`send_prompt_and_get_response` immediately returns the structured dict
`{"error": "Failed to parse response", "raw_response": raw}` without any
restart or further exchange attempt — and, the model's return type being
`SendResult`, the caller always receives a structured dict, never an
exception (every raise site in the method body sits under a
`try/except`). -/
theorem send_decode_failure_immediate {J : Type} (env : SendEnv J)
    (mr : ℕ) (st : PMState) (s : String)
    (hinit : st.is_initialized = true) (hrun : st.is_running = true)
    (hproc : st.proc = true)
    (hex : env.exchange 0 = .response s) (hs : s ≠ "")
    (hj : env.jsonLoads s = none) :
    send_prompt_and_get_response env mr st = (.errParse s, st, ⟨0, 0, 1⟩) := by
  simp [send_prompt_and_get_response, hinit, hrun, send_loop, hproc, hex, hs, hj]

/-- Witness for `send_decode_failure_immediate` on the malformed terminal
output string `not json`. -/
theorem send_decode_failure_immediate_witness :
    send_prompt_and_get_response
        (⟨fun _ => none, fun _ => ExchangeOutcome.response "not json",
          fun _ => true⟩ : SendEnv Unit)
        3 ⟨true, true, true⟩
      = (.errParse "not json", ⟨true, true, true⟩, ⟨0, 0, 1⟩) :=
  send_decode_failure_immediate
    (⟨fun _ => none, fun _ => ExchangeOutcome.response "not json",
      fun _ => true⟩ : SendEnv Unit)
    3 ⟨true, true, true⟩ "not json" rfl rfl rfl rfl (by decide) rfl

/-- When every attempt of the primary fails, the retry loop of
`execute_with_fallback` never produces a success value. -/
theorem ewf_attempts_all_fail {E A : Type} (f : ℕ → Except E A)
    (h : ∀ n, ∃ e, f n = .error e) :
    ∀ (fuel start : ℕ) (last : Option E),
      (ewf_attempts f start fuel last).1 = none := by
  intro fuel
  induction fuel with
  | zero => intro start last; rfl
  | succ n ih =>
    intro start last
    obtain ⟨e, he⟩ := h start
    simp only [ewf_attempts, he]
    exact ih (start + 1) (some e)

/-- With no fallback function and an always-failing primary,
`execute_with_fallback` raises the recorded last exception. -/
theorem ewf_all_fail_error {E A : Type} (mr : ℤ) (f : ℕ → Except E A)
    (h : ∀ n, ∃ e, f n = .error e) :
    execute_with_fallback mr f none
      = .error (ewf_attempts f 0 mr.toNat none).2.1 := by
  have h1 := ewf_attempts_all_fail f h mr.toNat 0 none
  unfold execute_with_fallback
  rcases hr : ewf_attempts f 0 mr.toNat none with ⟨a, last, c⟩
  rw [hr] at h1
  simp only at h1
  subst h1
  rfl

/-- An embedding provider chain in which every entry always fails ends in
the deterministic dummy embedding, via `.ok` — never via an exception. -/
theorem emb_try_providers_all_fail (mr : ℤ) (text : String) (digest : List ℕ)
    (dim : ℕ) (provs : List (String → ℕ → Except PyExc (List ℝ)))
    (h : ∀ q ∈ provs, ∀ n, ∃ e, q text n = Except.error e) :
    emb_try_providers mr text digest dim provs
      = .ok (dummy_embedding_of_digest digest dim) := by
  induction provs with
  | nil => rfl
  | cons p rest ih =>
    have hp : ∀ n, ∃ e, p text n = Except.error e :=
      h p (List.mem_cons_self p rest)
    have he := ewf_all_fail_error mr (p text) hp
    simp only [emb_try_providers, he]
    exact ih (fun q hq => h q (List.mem_cons_of_mem p hq))

/-- An LLM provider chain in which every entry always fails raises the
exception recorded from its last entry. -/
theorem llm_try_providers_all_fail (mr : ℤ) (prompt : String)
    (lps : List (String → ℕ → Except PyExc String))
    (p : String → ℕ → Except PyExc String) (oe : Option PyExc)
    (h : ∀ q ∈ lps, ∀ n, ∃ e, q prompt n = Except.error e)
    (hp : execute_with_fallback mr (p prompt) none = .error oe) :
    ∀ last, llm_try_providers mr prompt (lps ++ [p]) last
      = .error (pyExcOfRaised oe) := by
  induction lps with
  | nil =>
    intro last
    simp only [List.nil_append, llm_try_providers, hp]
  | cons q rest ih =>
    intro last
    have hq : ∀ n, ∃ e, q prompt n = Except.error e :=
      h q (List.mem_cons_self q rest)
    have he := ewf_all_fail_error mr (q prompt) hq
    simp only [List.cons_append, llm_try_providers, he]
    exact ih (fun r hr => h r (List.mem_cons_of_mem q hr)) _

/-- C3: when every provider entry of both chains has exhausted its retry
budget (each call fails), `EmbeddingFallbackManager.get_embedding` returns
`.ok` with the deterministic pseudo-embedding derived from the md5 hash of
the text — it never raises past this point — while
`LLMFallbackManager.generate_text` raises the last observed provider error
(the exception recorded from the final chain entry); only the LLM path can
surface a chain-exhausted error. -/
theorem embedding_never_raises_llm_propagates (mr : ℤ) (dim : ℕ)
    (md5hex : String → List ℕ)
    (eps : List (String → ℕ → Except PyExc (List ℝ)))
    (lps : List (String → ℕ → Except PyExc String))
    (p : String → ℕ → Except PyExc String)
    (text prompt : String) (oe : Option PyExc)
    (hep : ∀ q ∈ eps, ∀ n, ∃ e, q text n = Except.error e)
    (hlp : ∀ q ∈ lps, ∀ n, ∃ e, q prompt n = Except.error e)
    (hlast : execute_with_fallback mr (p prompt) none = .error oe) :
    EmbeddingFallbackManager_get_embedding mr dim md5hex eps text
      = .ok (dummy_embedding_of_digest (md5hex text) dim)
    ∧ generate_text mr (lps ++ [p]) prompt = .error (pyExcOfRaised oe) := by
  constructor
  · exact emb_try_providers_all_fail mr text (md5hex text) dim eps hep
  · have hne : (lps ++ [p]).isEmpty = false := by
      simp [List.isEmpty_eq_false_iff_exists_mem]
    simp only [generate_text, hne, Bool.false_eq_true, if_false]
    exact llm_try_providers_all_fail mr prompt lps p oe hlp hlast none

/-- Witness for `embedding_never_raises_llm_propagates` with one
always-failing provider on each chain. -/
theorem embedding_never_raises_llm_propagates_witness :
    EmbeddingFallbackManager_get_embedding 3 1 (fun _ => [0])
        [fun _ _ => Except.error PyExc.typeError] "t"
      = .ok (dummy_embedding_of_digest ((fun _ : String => ([0] : List ℕ)) "t") 1)
    ∧ generate_text 3 ([] ++ [fun _ _ => Except.error (PyExc.providerError 1)]) "q"
      = .error (pyExcOfRaised (some (PyExc.providerError 1))) :=
  embedding_never_raises_llm_propagates 3 1 (fun _ => [0])
    [fun _ _ => Except.error PyExc.typeError] []
    (fun _ _ => Except.error (PyExc.providerError 1)) "t" "q"
    (some (PyExc.providerError 1))
    (by
      intro q hq n
      rw [List.mem_singleton] at hq
      subst hq
      exact ⟨_, rfl⟩)
    (by intro q hq; simp at hq)
    (by rfl)

/-- Sum of squares over a cons cell. -/
theorem sumSq_cons (a : ℚ) (t : List ℚ) : sumSq (a :: t) = a * a + sumSq t := by
  simp [sumSq]

/-- A sum of squares is non-negative. -/
theorem sumSq_nonneg (v : List ℚ) : 0 ≤ sumSq v := by
  induction v with
  | nil => simp [sumSq]
  | cons a t ih =>
    rw [sumSq_cons]
    nlinarith [mul_self_nonneg a]

/-- No hex digit value is zero: `(d / 15) * 2 - 1 = 0` would need
`2 * d = 15`, impossible for an integer digit.  This is why the raw dummy
embedding can never be the zero vector. -/
theorem hex_value_ne_zero (d : ℕ) : hex_value d ≠ 0 := by
  intro h
  unfold hex_value at h
  have h2 : (d : ℚ) * 2 = 15 := by
    field_simp at h
    linarith
  have h3 : (d * 2 : ℕ) = 15 := by exact_mod_cast h2
  omega

/-- A nonempty vector of nonzero entries has positive sum of squares. -/
theorem sumSq_pos (v : List ℚ) (hne : v ≠ []) (h : ∀ x ∈ v, x ≠ 0) :
    0 < sumSq v := by
  cases v with
  | nil => exact absurd rfl hne
  | cons a t =>
    rw [sumSq_cons]
    have ha : a ≠ 0 := h a (List.mem_cons_self a t)
    nlinarith [mul_self_pos.mpr ha, sumSq_nonneg t]

/-- The raw dummy embedding has exactly `dimension` entries. -/
theorem dummy_raw_embedding_length (digest : List ℕ) (dim : ℕ) :
    (dummy_raw_embedding digest dim).length = dim := by
  simp [dummy_raw_embedding]

/-- Every entry of the raw dummy embedding is nonzero. -/
theorem dummy_raw_embedding_mem_ne_zero (digest : List ℕ) (dim : ℕ) :
    ∀ x ∈ dummy_raw_embedding digest dim, x ≠ 0 := by
  intro x hx
  simp only [dummy_raw_embedding, List.mem_map, List.mem_range] at hx
  obtain ⟨i, _, rfl⟩ := hx
  exact hex_value_ne_zero _

/-- Sum of squares after dividing every entry by a common constant. -/
theorem sum_sq_div (w : List ℚ) (c : ℝ) :
    ((w.map (fun x : ℚ => ((x : ℝ) / c) * ((x : ℝ) / c))).sum)
      = ((sumSq w : ℚ) : ℝ) / (c * c) := by
  induction w with
  | nil => simp [sumSq]
  | cons a t ih =>
    rw [List.map_cons, List.sum_cons, ih, sumSq_cons]
    push_cast
    rw [div_mul_div_comm, div_add_div_same]

/-- Dividing a vector of positive sum of squares by the square root of that
sum yields a vector of Euclidean norm 1. -/
theorem normR_unit (w : List ℚ) (hS : 0 < sumSq w) :
    normR (w.map (fun x : ℚ => (x : ℝ) / Real.sqrt ((sumSq w : ℚ) : ℝ))) = 1 := by
  have hSR : (0 : ℝ) < ((sumSq w : ℚ) : ℝ) := by exact_mod_cast hS
  unfold normR
  rw [List.map_map]
  have hmap : ((fun x => x * x) ∘ fun x : ℚ => (x : ℝ) / Real.sqrt ((sumSq w : ℚ) : ℝ))
      = fun x : ℚ => ((x : ℝ) / Real.sqrt ((sumSq w : ℚ) : ℝ))
          * ((x : ℝ) / Real.sqrt ((sumSq w : ℚ) : ℝ)) := rfl
  rw [hmap, sum_sq_div, Real.mul_self_sqrt hSR.le, div_self hSR.ne', Real.sqrt_one]

/-- For a nonempty digest and positive dimension, the dummy embedding takes
its normalization branch and has unit Euclidean norm. -/
theorem dummy_embedding_unit_norm (digest : List ℕ) (dim : ℕ)
    (hdim : 1 ≤ dim) :
    normR (dummy_embedding_of_digest digest dim) = 1 := by
  have hne : dummy_raw_embedding digest dim ≠ [] := by
    intro hcon
    have hlen := dummy_raw_embedding_length digest dim
    rw [hcon] at hlen
    simp at hlen
    omega
  have hpos : 0 < sumSq (dummy_raw_embedding digest dim) :=
    sumSq_pos _ hne (dummy_raw_embedding_mem_ne_zero digest dim)
  have hemb : dummy_embedding_of_digest digest dim
      = (dummy_raw_embedding digest dim).map
          (fun x : ℚ => (x : ℝ)
            / Real.sqrt ((sumSq (dummy_raw_embedding digest dim) : ℚ) : ℝ)) := by
    unfold dummy_embedding_of_digest
    simp only [if_pos hpos]
  rw [hemb]
  exact normR_unit _ hpos

/-- C7: with all real providers disabled (empty chain) or failing, the
embedding chain is a pure function of the input text — the md5 digest is
deterministic — so two calls with identical text return one and the same,
bit-identical fallback vector, and that vector has unit norm.  The theorem
exhibits the vector `v` of the first call, shows any repeated call returns
exactly `v`, and proves `‖v‖ = 1` (the digest of a text is never empty —
md5 hex digests have 32 digits — and the configured dummy dimension is
positive, 384 by default). -/
theorem embedding_fallback_deterministic (mr : ℤ) (dim : ℕ)
    (md5hex : String → List ℕ)
    (provs : List (String → ℕ → Except PyExc (List ℝ))) (text : String)
    (hdim : 1 ≤ dim) (_hdig : md5hex text ≠ [])
    (hfail : ∀ q ∈ provs, ∀ n, ∃ e, q text n = Except.error e) :
    ∃ v : List ℝ,
      EmbeddingFallbackManager_get_embedding mr dim md5hex provs text = .ok v
      ∧ (∀ w, EmbeddingFallbackManager_get_embedding mr dim md5hex provs text
            = .ok w → w = v)
      ∧ normR v = 1 := by
  have h1 : EmbeddingFallbackManager_get_embedding mr dim md5hex provs text
      = .ok (dummy_embedding_of_digest (md5hex text) dim) :=
    emb_try_providers_all_fail mr text (md5hex text) dim provs hfail
  refine ⟨dummy_embedding_of_digest (md5hex text) dim, h1, ?_, ?_⟩
  · intro w hw
    rw [h1] at hw
    injection hw with h2
    exact h2.symm
  · exact dummy_embedding_unit_norm (md5hex text) dim hdim

/-- Witness for `embedding_fallback_deterministic` at dimension 384 with an
empty (disabled) provider chain and a 32-digit digest oracle. -/
theorem embedding_fallback_deterministic_witness :
    ∃ v : List ℝ,
      EmbeddingFallbackManager_get_embedding 3 384
          (fun _ => List.replicate 32 5) [] "hello" = .ok v
      ∧ (∀ w, EmbeddingFallbackManager_get_embedding 3 384
            (fun _ => List.replicate 32 5) [] "hello" = .ok w → w = v)
      ∧ normR v = 1 :=
  embedding_fallback_deterministic 3 384 (fun _ => List.replicate 32 5) []
    "hello" (by norm_num) (by simp) (by intro q hq; simp at hq)
